import Mathlib

/-!
Verification of the `CIBILScoreCalculator` credit-scoring engine
(`credit_scorer.py`) against its natural-language specification.

Modelling conventions:
* Python floats are embedded as exact rationals (`ℚ`); the decimal
  literals of the source (`0.35`, `0.95`, ...) become the corresponding
  rationals (`35/100`, `95/100`, ...).
* Python `int` values are embedded as `ℤ`.
* The `weights` dict is an association list in insertion order; a dict
  lookup that can raise `KeyError` is embedded as an `Option`-valued
  lookup, and a computation that can raise is `Option`-valued, with
  `none` standing for the raised `KeyError`.
* Python 3's `round` (round half to even, returning an integer) is
  embedded as `roundHalfEven`.
* For the one claim whose truth depends on IEEE-754 binary64 rounding
  (the weight-sum identity), a binary64 rounding model `floatRound` is
  provided in addition to the exact-rational reading.
-/

namespace CreditScorer

/-- The `self.weights` dict of `CIBILScoreCalculator.__init__`, in
insertion order, with the decimal literals read as exact rationals. -/
def weightsList : List (String × ℚ) :=
  [("payment_history", 35/100),
   ("credit_utilization", 30/100),
   ("credit_age", 15/100),
   ("credit_mix", 10/100),
   ("new_credit", 10/100)]

/-- Dict lookup `self.weights[component]`: `none` models a `KeyError`. -/
def weights (component : String) : Option ℚ :=
  weightsList.lookup component

/-- `self.MIN_SCORE = 300`. -/
def MIN_SCORE : ℤ := 300

/-- `self.MAX_SCORE = 900`. -/
def MAX_SCORE : ℤ := 900

/-- `self.SCORE_RANGE = self.MAX_SCORE - self.MIN_SCORE`. -/
def SCORE_RANGE : ℤ := MAX_SCORE - MIN_SCORE

/-- `calculate_payment_history_score`: base is `percent / 100`; when
`days_late_avg > 0` the base is scaled by `1 - min(days_late_avg/90, 1) * 0.5`. -/
def calculate_payment_history_score (on_time_payments_percent : ℚ)
    (days_late_avg : ℚ) : ℚ :=
  let base_score := on_time_payments_percent / 100
  if 0 < days_late_avg then
    base_score * (1 - min (days_late_avg / 90) 1 * (1/2))
  else
    base_score

/-- `calculate_credit_utilization_score`: the if/elif chain of the source. -/
def calculate_credit_utilization_score (utilization_percent : ℚ) : ℚ :=
  if utilization_percent ≤ 10 then 95/100
  else if utilization_percent ≤ 30 then 1
  else if utilization_percent ≤ 50 then 85/100
  else if utilization_percent ≤ 75 then 60/100
  else 30/100

/-- `calculate_credit_age_score`: the if/elif chain of the source. -/
def calculate_credit_age_score (years : ℚ) : ℚ :=
  if 5 ≤ years then 1
  else if 3 ≤ years then 85/100
  else if 1 ≤ years then 70/100
  else 40/100

/-- `calculate_credit_mix_score`: floor of `0.30` when there are no
products at all, otherwise the capped diversity sum clamped to `1.0`. -/
def calculate_credit_mix_score (num_secured_loans num_unsecured_loans : ℤ)
    (has_credit_card : Bool) : ℚ :=
  let total_products :=
    num_secured_loans + num_unsecured_loans + (if has_credit_card then 1 else 0)
  if total_products = 0 then 30/100
  else
    let diversity_score :=
      ((min num_secured_loans 2 : ℤ) : ℚ) * (3/10)
        + ((min num_unsecured_loans 2 : ℤ) : ℚ) * (2/10)
        + (if has_credit_card then (1:ℚ) else 0) * (2/10)
    min diversity_score 1

/-- `calculate_new_credit_score`: `1.0 - max(inquiry_penalty, new_account_penalty)`
with each penalty capped at `0.60`. -/
def calculate_new_credit_score (num_inquiries_6months num_new_accounts_6months : ℤ) : ℚ :=
  let inquiry_penalty := min ((num_inquiries_6months : ℚ) * (15/100)) (60/100)
  let new_account_penalty := min ((num_new_accounts_6months : ℚ) * (20/100)) (60/100)
  1 - max inquiry_penalty new_account_penalty

/-- Python 3's `round` on a real value, returning an integer: round half
to even (banker's rounding). -/
def roundHalfEven (q : ℚ) : ℤ :=
  if q - ⌊q⌋ < 1/2 then ⌊q⌋
  else if 1/2 < q - ⌊q⌋ then ⌊q⌋ + 1
  else if ⌊q⌋ % 2 = 0 then ⌊q⌋ else ⌊q⌋ + 1

/-- The `for component, score in components.items()` loop of
`calculate_final_score`: builds `weighted_scores` (in iteration order)
and accumulates `total_score`; a component name absent from `weights`
raises `KeyError`, modelled as `none`. -/
def computeWeighted : List (String × ℚ) → Option (List (String × ℚ) × ℚ)
  | [] => some ([], 0)
  | (component, score) :: rest =>
    match weights component with
    | none => none
    | some w =>
      match computeWeighted rest with
      | none => none
      | some (tail, total) =>
        let weighted_score := score * w * (SCORE_RANGE : ℚ)
        some ((component, weighted_score) :: tail, weighted_score + total)

/-- `calculate_final_score`: weight the components, round the shifted
total, clamp to `[MIN_SCORE, MAX_SCORE]`, and return the final score
with the per-component weighted scores. -/
def calculate_final_score (components : List (String × ℚ)) :
    Option (ℤ × List (String × ℚ)) :=
  match computeWeighted components with
  | none => none
  | some (weighted_scores, total_score) =>
    let final_score := roundHalfEven (total_score + (MIN_SCORE : ℚ))
    some (max (min final_score MAX_SCORE) MIN_SCORE, weighted_scores)

/-- `calculate_score`: the entry point; assembles the five component
scores in the source's insertion order and delegates to
`calculate_final_score`. -/
def calculate_score (on_time_payments_percent days_late_avg
    utilization_percent credit_age_years : ℚ)
    (num_secured_loans num_unsecured_loans : ℤ) (has_credit_card : Bool)
    (num_inquiries_6months num_new_accounts_6months : ℤ) :
    Option (ℤ × List (String × ℚ)) :=
  calculate_final_score
    [("payment_history",
       calculate_payment_history_score on_time_payments_percent days_late_avg),
     ("credit_utilization",
       calculate_credit_utilization_score utilization_percent),
     ("credit_age",
       calculate_credit_age_score credit_age_years),
     ("credit_mix",
       calculate_credit_mix_score num_secured_loans num_unsecured_loans has_credit_card),
     ("new_credit",
       calculate_new_credit_score num_inquiries_6months num_new_accounts_6months)]

/-- Spec-side reading of the utilization table (§4.2): buckets with an
inclusive upper bound and an explicit strict lower bound, first match
in ascending threshold order. Used only to compare against the source
function. -/
def utilization_bucket_table (u : ℚ) : ℚ :=
  if u ≤ 10 then 95/100
  else if 10 < u ∧ u ≤ 30 then 1
  else if 30 < u ∧ u ≤ 50 then 85/100
  else if 50 < u ∧ u ≤ 75 then 60/100
  else 30/100

end CreditScorer

namespace Binary64

/-- Exponent search for `1 ≤ a`: with enough fuel, returns the `e` with
`2 ^ e ≤ a < 2 ^ (e + 1)`. Fuel-bounded structural recursion so proofs
can evaluate it by rewriting; 64 steps of fuel cover the binades of
every value this development applies the model to (all lie in
`[2 ^ (-4), 2)`). -/
def binexpUp : ℕ → ℚ → ℤ
  | 0, _ => 0
  | fuel + 1, a => if a < 2 then 0 else binexpUp fuel (a / 2) + 1

/-- Exponent search for `0 < a < 1`: with enough fuel, returns the `e`
(negative) with `2 ^ e ≤ a < 2 ^ (e + 1)`. -/
def binexpDown : ℕ → ℚ → ℤ
  | 0, _ => 0
  | fuel + 1, a => if 1 ≤ a then 0 else binexpDown fuel (a * 2) - 1

/-- Binade exponent of a positive rational. -/
def binexp (a : ℚ) : ℤ :=
  if 1 ≤ a then binexpUp 64 a else binexpDown 64 a

/-- `2 ^ k` in `ℚ` for an integer `k`. -/
def pow2 (k : ℤ) : ℚ :=
  (2:ℚ) ^ k

/-- Round half to even, as an integer-valued rounding on `ℚ`. -/
def rne (q : ℚ) : ℤ :=
  if q - ⌊q⌋ < 1/2 then ⌊q⌋
  else if 1/2 < q - ⌊q⌋ then ⌊q⌋ + 1
  else if ⌊q⌋ % 2 = 0 then ⌊q⌋ else ⌊q⌋ + 1

/-- Binary64 rounding of a positive rational: the significand is
rounded to 53 bits (round to nearest, ties to even) at the value's
binade. -/
def floatRoundPos (a : ℚ) : ℚ :=
  (rne (a * pow2 (52 - binexp a)) : ℚ) * pow2 (binexp a - 52)

/-- IEEE-754 binary64 rounding (round to nearest, ties to even) of a
rational in the normal range. Subnormals and overflow are outside the
range this development evaluates it on. -/
def floatRound (q : ℚ) : ℚ :=
  if q = 0 then 0
  else if q < 0 then -floatRoundPos (-q)
  else floatRoundPos q

/-- Left fold of binary64 additions starting from `0`, as Python's
`sum` performs on a list of floats. -/
def floatSum (l : List ℚ) : ℚ :=
  l.foldl (fun acc x => floatRound (acc + x)) 0

/-- `sum(self.weights.values())` as Python evaluates it: each stored
decimal literal is first rounded to its binary64 value, then the values
are summed left-to-right in binary64 arithmetic. -/
def pyWeightsSum : ℚ :=
  floatSum (CreditScorer.weightsList.map (fun p => floatRound p.2))

end Binary64

namespace CreditScorer

/-- Evaluation of the weight lookup for `payment_history`. -/
theorem weights_eval_payment_history : weights "payment_history" = some (35/100) := rfl

/-- Evaluation of the weight lookup for `credit_utilization`. -/
theorem weights_eval_credit_utilization : weights "credit_utilization" = some (30/100) := rfl

/-- Evaluation of the weight lookup for `credit_age`. -/
theorem weights_eval_credit_age : weights "credit_age" = some (15/100) := rfl

/-- Evaluation of the weight lookup for `credit_mix`. -/
theorem weights_eval_credit_mix : weights "credit_mix" = some (10/100) := rfl

/-- Evaluation of the weight lookup for `new_credit`. -/
theorem weights_eval_new_credit : weights "new_credit" = some (10/100) := rfl

/-- Shifting by the even integer `300` commutes with round-half-to-even. -/
theorem roundHalfEven_add_three_hundred (t : ℚ) :
    roundHalfEven (t + 300) = roundHalfEven t + 300 := by
  have hfl : ⌊t + (300:ℚ)⌋ = ⌊t⌋ + 300 := by
    rw [show ((300:ℚ)) = ((300:ℤ):ℚ) by norm_num, Int.floor_add_int]
  unfold roundHalfEven
  rw [hfl]
  have hfr : t + 300 - ((⌊t⌋ + 300 : ℤ) : ℚ) = t - ⌊t⌋ := by push_cast; ring
  rw [hfr]
  have hpar : (⌊t⌋ + 300) % 2 = ⌊t⌋ % 2 := by omega
  rw [hpar]
  split_ifs <;> omega

/-- The clamp applied to a rounded shifted total can equivalently round
first and shift by `MIN_SCORE` afterwards. -/
theorem clamp_round_shift (T S : ℚ) (h : S = T) :
    max (min (roundHalfEven (T + (MIN_SCORE : ℚ))) MAX_SCORE) MIN_SCORE =
      max (min (roundHalfEven S + MIN_SCORE) MAX_SCORE) MIN_SCORE := by
  subst h
  rw [show ((MIN_SCORE : ℤ) : ℚ) = 300 by norm_num [MIN_SCORE],
    roundHalfEven_add_three_hundred]
  rfl

end CreditScorer

open CreditScorer in
/-- Claim C1: for every input to the entry point `calculate_score`,
including negative or out-of-range numeric values, the call succeeds and
the final score is an integer in `[300, 900]`; it equals the
round-half-to-even of the summed weighted contributions, shifted by
`MIN_SCORE` and clamped to `[MIN_SCORE, MAX_SCORE]`. -/
theorem C1_final_score_in_range
    (on_time_payments_percent days_late_avg utilization_percent credit_age_years : ℚ)
    (num_secured_loans num_unsecured_loans : ℤ) (has_credit_card : Bool)
    (num_inquiries_6months num_new_accounts_6months : ℤ) :
    ∃ s ws,
      calculate_score on_time_payments_percent days_late_avg utilization_percent
          credit_age_years num_secured_loans num_unsecured_loans has_credit_card
          num_inquiries_6months num_new_accounts_6months = some (s, ws) ∧
      MIN_SCORE ≤ s ∧ s ≤ MAX_SCORE ∧
      s = max (min (roundHalfEven ((ws.map Prod.snd).sum) + MIN_SCORE) MAX_SCORE) MIN_SCORE := by
  simp only [calculate_score, calculate_final_score, computeWeighted,
    weights_eval_payment_history, weights_eval_credit_utilization,
    weights_eval_credit_age, weights_eval_credit_mix, weights_eval_new_credit]
  refine ⟨_, _, rfl, le_max_right _ _,
    max_le (min_le_right _ _) (by norm_num [MIN_SCORE, MAX_SCORE]), ?_⟩
  exact clamp_round_shift _ _ (by
    simp only [List.map_cons, List.map_nil, List.sum_cons, List.sum_nil]
    try ring)

open CreditScorer in
/-- Claim C2: for `onTimePaymentsPercent` in `[0,100]` and
`daysLateAvg ≥ 0`, the payment-history sub-score equals
`(p/100) * (1 - min(d/90, 1) * 0.5)` when `d > 0` and `p/100` otherwise,
lies in `[0,1]`, and takes the values `1`, `0.5`, `0.5` at
`(100,0)`, `(100,90)`, `(100,180)`. -/
theorem C2_payment_history_formula_and_bounds
    (p d : ℚ) (hp0 : 0 ≤ p) (hp1 : p ≤ 100) (hd : 0 ≤ d) :
    calculate_payment_history_score p d =
      (if 0 < d then p / 100 * (1 - min (d / 90) 1 * (1/2)) else p / 100) ∧
    0 ≤ calculate_payment_history_score p d ∧
    calculate_payment_history_score p d ≤ 1 ∧
    calculate_payment_history_score 100 0 = 1 ∧
    calculate_payment_history_score 100 90 = 1/2 ∧
    calculate_payment_history_score 100 180 = 1/2 := by
  have hm0 : 0 ≤ min (d / 90) 1 := le_min (by positivity) zero_le_one
  have hm1 : min (d / 90) 1 ≤ 1 := min_le_right _ _
  refine ⟨rfl, ?_, ?_,
    by norm_num [calculate_payment_history_score],
    by norm_num [calculate_payment_history_score],
    by norm_num [calculate_payment_history_score]⟩
  · simp only [calculate_payment_history_score]
    split_ifs
    · exact mul_nonneg (by positivity) (by linarith)
    · positivity
  · simp only [calculate_payment_history_score]
    split_ifs
    · nlinarith
    · linarith

open CreditScorer in
/-- Witness for claim C2 at `p = 50`, `d = 30`. -/
theorem C2_payment_history_witness :
    (0:ℚ) ≤ 50 ∧ (50:ℚ) ≤ 100 ∧ (0:ℚ) ≤ 30 ∧
      0 ≤ calculate_payment_history_score 50 30 :=
  ⟨by norm_num, by norm_num, by norm_num,
    (C2_payment_history_formula_and_bounds 50 30 (by norm_num) (by norm_num)
      (by norm_num)).2.1⟩

open CreditScorer in
/-- Claim C3: the utilization sub-score is the step function with
inclusive upper bucket boundaries (0.95 for `u ≤ 10`, 1.00 for
`10 < u ≤ 30`, 0.85 for `30 < u ≤ 50`, 0.60 for `50 < u ≤ 75`, 0.30
otherwise), and in particular takes the values 0.95, 1.00, 1.00, 0.85
at 10, 10.01, 30, 30.01. -/
theorem C3_utilization_step_function :
    (∀ u : ℚ, calculate_credit_utilization_score u = utilization_bucket_table u) ∧
    calculate_credit_utilization_score 10 = 95/100 ∧
    calculate_credit_utilization_score (1001/100) = 1 ∧
    calculate_credit_utilization_score 30 = 1 ∧
    calculate_credit_utilization_score (3001/100) = 85/100 := by
  refine ⟨?_, by norm_num [calculate_credit_utilization_score],
    by norm_num [calculate_credit_utilization_score],
    by norm_num [calculate_credit_utilization_score],
    by norm_num [calculate_credit_utilization_score]⟩
  intro u
  simp only [calculate_credit_utilization_score, utilization_bucket_table]
  split_ifs <;> first | rfl | (exfalso; simp_all; try linarith)

open CreditScorer in
/-- Claim C4: for non-negative loan counts, the credit-mix sub-score is
exactly 0.30 when both counts are zero and there is no card, and
otherwise `min(min(ns,2)*0.3 + min(nu,2)*0.2 + (card ? 0.2 : 0), 1)`;
in particular it is 0.30 at `(0,0,false)` and 1.00 at `(5,5,true)`. -/
theorem C4_credit_mix_formula
    (ns nu : ℤ) (hns : 0 ≤ ns) (hnu : 0 ≤ nu) (c : Bool) :
    calculate_credit_mix_score ns nu c =
      (if ns = 0 ∧ nu = 0 ∧ c = false then 30/100
       else min (((min ns 2 : ℤ) : ℚ) * (3/10) + ((min nu 2 : ℤ) : ℚ) * (2/10)
         + (if c then (1:ℚ) else 0) * (2/10)) 1) ∧
    calculate_credit_mix_score 0 0 false = 30/100 ∧
    calculate_credit_mix_score 5 5 true = 1 := by
  refine ⟨?_, by norm_num [calculate_credit_mix_score],
    by norm_num [calculate_credit_mix_score]⟩
  have hcond : (ns + nu + (if c then (1:ℤ) else 0) = 0) ↔
      (ns = 0 ∧ nu = 0 ∧ c = false) := by
    cases c <;> simp <;> omega
  simp only [calculate_credit_mix_score, hcond]

open CreditScorer in
/-- Witness for claim C4 at `ns = 5`, `nu = 5`, card present. -/
theorem C4_credit_mix_witness :
    (0:ℤ) ≤ 5 ∧ (0:ℤ) ≤ 5 ∧ calculate_credit_mix_score 5 5 true = 1 :=
  ⟨by norm_num, by norm_num,
    (C4_credit_mix_formula 5 5 (by norm_num) (by norm_num) true).2.2⟩

open CreditScorer in
/-- Claim C5: for non-negative counts the new-credit sub-score is
`1 - max(min(ni*0.15, 0.6), min(na*0.20, 0.6))` (penalties do not
stack), lies in `[0.40, 1]`, and takes the values 0.40, 0.40, 0.60 at
`(4,0)`, `(0,4)`, `(2,2)`. -/
theorem C5_new_credit_formula_and_bounds
    (ni na : ℤ) (hni : 0 ≤ ni) (hna : 0 ≤ na) :
    calculate_new_credit_score ni na =
      1 - max (min ((ni:ℚ) * (15/100)) (60/100)) (min ((na:ℚ) * (20/100)) (60/100)) ∧
    2/5 ≤ calculate_new_credit_score ni na ∧
    calculate_new_credit_score ni na ≤ 1 ∧
    calculate_new_credit_score 4 0 = 2/5 ∧
    calculate_new_credit_score 0 4 = 2/5 ∧
    calculate_new_credit_score 2 2 = 3/5 := by
  have hni' : (0:ℚ) ≤ (ni:ℚ) := by exact_mod_cast hni
  have hna' : (0:ℚ) ≤ (na:ℚ) := by exact_mod_cast hna
  have hub : max (min ((ni:ℚ) * (15/100)) (60/100))
      (min ((na:ℚ) * (20/100)) (60/100)) ≤ 60/100 :=
    max_le (min_le_right _ _) (min_le_right _ _)
  have hlb : (0:ℚ) ≤ max (min ((ni:ℚ) * (15/100)) (60/100))
      (min ((na:ℚ) * (20/100)) (60/100)) :=
    le_trans (le_min (by positivity) (by norm_num)) (le_max_left _ _)
  refine ⟨rfl, ?_, ?_,
    by norm_num [calculate_new_credit_score],
    by norm_num [calculate_new_credit_score],
    by norm_num [calculate_new_credit_score]⟩
  · simp only [calculate_new_credit_score]
    linarith
  · simp only [calculate_new_credit_score]
    linarith

open CreditScorer in
/-- Witness for claim C5 at `ni = 4`, `na = 0`. -/
theorem C5_new_credit_witness :
    (0:ℤ) ≤ 4 ∧ (0:ℤ) ≤ 0 ∧ 2/5 ≤ calculate_new_credit_score 4 0 :=
  ⟨by norm_num, by norm_num,
    (C5_new_credit_formula_and_bounds 4 0 (by norm_num) (by norm_num)).2.1⟩

open CreditScorer in
/-- Helper for claim C6: the weighting loop succeeds on any component
mapping whose keys are all known to the weights configuration. -/
theorem computeWeighted_isSome_of_known_keys
    (components : List (String × ℚ))
    (h : ∀ p ∈ components, (weights p.1).isSome = true) :
    ∃ r, computeWeighted components = some r := by
  induction components with
  | nil => exact ⟨([], 0), rfl⟩
  | cons hd tl ih =>
    obtain ⟨name, score⟩ := hd
    obtain ⟨w, hw⟩ := Option.isSome_iff_exists.mp
      (h (name, score) (List.mem_cons_self _ _))
    obtain ⟨⟨tail, total⟩, ht⟩ := ih (fun p hp => h p (List.mem_cons_of_mem _ hp))
    refine ⟨((name, score * w * (SCORE_RANGE : ℚ)) :: tail,
      score * w * (SCORE_RANGE : ℚ) + total), ?_⟩
    simp only [computeWeighted, hw, ht]

open CreditScorer in
/-- Claim C6 counterexample: a `ComponentScores` mapping lacking four of
the five component names, passed directly to the aggregator, does NOT
fail with a lookup error — the call succeeds, silently omitting the
missing components. -/
theorem C6_counterexample_missing_keys_no_error :
    calculate_final_score [("payment_history", 9/10)] =
      some (489, [("payment_history", 189)]) ∧
    calculate_final_score [("payment_history", 9/10)] ≠ none := by
  have h : calculate_final_score [("payment_history", 9/10)] =
      some (489, [("payment_history", 189)]) := by
    norm_num [calculate_final_score, computeWeighted,
      weights_eval_payment_history, roundHalfEven, SCORE_RANGE, MIN_SCORE,
      MAX_SCORE]
  exact ⟨h, by rw [h]; exact fun hc => Option.noConfusion hc⟩

open CreditScorer in
/-- Claim C6 amended: a mapping whose keys all belong to the weights
configuration never fails, even when component names are missing — the
aggregator silently omits absent components (the example with only
`payment_history` present yields `round(0.9*0.35*600 + 300) = 489`);
a lookup failure occurs only when a key unknown to the weights
configuration is present. -/
theorem C6_amended_missing_keys_silently_omitted :
    (∀ components : List (String × ℚ),
        (∀ p ∈ components, (weights p.1).isSome = true) →
        ∃ s ws, calculate_final_score components = some (s, ws)) ∧
    calculate_final_score [("payment_history", 9/10)] =
      some (489, [("payment_history", 189)]) ∧
    calculate_final_score [("bogus_component", 1)] = none := by
  refine ⟨?_, ?_, rfl⟩
  · intro components h
    obtain ⟨⟨ws, total⟩, hr⟩ := computeWeighted_isSome_of_known_keys components h
    refine ⟨max (min (roundHalfEven (total + (MIN_SCORE : ℚ))) MAX_SCORE) MIN_SCORE,
      ws, ?_⟩
    simp only [calculate_final_score, hr]
  · norm_num [calculate_final_score, computeWeighted,
      weights_eval_payment_history, roundHalfEven, SCORE_RANGE, MIN_SCORE,
      MAX_SCORE]

open CreditScorer in
/-- Witness for the amended claim C6 at the singleton mapping
`{credit_age: 1}`. -/
theorem C6_amended_witness :
    ∃ s ws, calculate_final_score [("credit_age", (1:ℚ))] = some (s, ws) :=
  C6_amended_missing_keys_silently_omitted.1 [("credit_age", (1:ℚ))]
    (by intro p hp; rw [List.mem_singleton] at hp; subst hp; rfl)

namespace Binary64

/-- Binary64 value of the stored literal `0.35`. -/
theorem floatRound_35 : floatRound (35/100) = 3152519739159347/9007199254740992 := by
  norm_num [floatRound, floatRoundPos, binexp, binexpUp, binexpDown, pow2, rne]

/-- Binary64 value of the stored literal `0.30`. -/
theorem floatRound_30 : floatRound (30/100) = 5404319552844595/18014398509481984 := by
  norm_num [floatRound, floatRoundPos, binexp, binexpUp, binexpDown, pow2, rne]

/-- Binary64 value of the stored literal `0.15`. -/
theorem floatRound_15 : floatRound (15/100) = 5404319552844595/36028797018963968 := by
  norm_num [floatRound, floatRoundPos, binexp, binexpUp, binexpDown, pow2, rne]

/-- Binary64 value of the stored literal `0.10`. -/
theorem floatRound_10 : floatRound (10/100) = 3602879701896397/36028797018963968 := by
  norm_num [floatRound, floatRoundPos, binexp, binexpUp, binexpDown, pow2, rne]

/-- First addition of the sum: `0 + 0.35`. -/
theorem floatStep_1 : floatRound (0 + 3152519739159347/9007199254740992) =
    3152519739159347/9007199254740992 := by
  norm_num [floatRound, floatRoundPos, binexp, binexpUp, binexpDown, pow2, rne]

/-- Second addition of the sum: `0.35 + 0.30`. -/
theorem floatStep_2 : floatRound (3152519739159347/9007199254740992 +
    5404319552844595/18014398509481984) = 1463669878895411/2251799813685248 := by
  norm_num [floatRound, floatRoundPos, binexp, binexpUp, binexpDown, pow2, rne]

/-- Third addition of the sum: `(0.35 + 0.30) + 0.15`. -/
theorem floatStep_3 : floatRound (1463669878895411/2251799813685248 +
    5404319552844595/36028797018963968) = 7205759403792793/9007199254740992 := by
  norm_num [floatRound, floatRoundPos, binexp, binexpUp, binexpDown, pow2, rne]

/-- Fourth addition of the sum: adding the first `0.10`. -/
theorem floatStep_4 : floatRound (7205759403792793/9007199254740992 +
    3602879701896397/36028797018963968) = 2026619832316723/2251799813685248 := by
  norm_num [floatRound, floatRoundPos, binexp, binexpUp, binexpDown, pow2, rne]

/-- Fifth addition of the sum: adding the second `0.10`. -/
theorem floatStep_5 : floatRound (2026619832316723/2251799813685248 +
    3602879701896397/36028797018963968) = 9007199254740991/9007199254740992 := by
  norm_num [floatRound, floatRoundPos, binexp, binexpUp, binexpDown, pow2, rne]

/-- `sum(weights.values())` in binary64 arithmetic evaluates to
`(2^53 - 1) / 2^53 = 0.9999999999999999`. -/
theorem pyWeightsSum_eval : pyWeightsSum = 9007199254740991/9007199254740992 := by
  rw [pyWeightsSum]
  simp only [CreditScorer.weightsList, List.map_cons, List.map_nil, floatSum,
    List.foldl, floatRound_35, floatRound_30, floatRound_15, floatRound_10]
  rw [floatStep_1, floatStep_2, floatStep_3, floatStep_4, floatStep_5]

end Binary64

/-- Claim C7 counterexample: under the binary64 floating-point
arithmetic Python actually uses, `sum(self.weights.values())` is
`(2^53 - 1) / 2^53 = 0.9999999999999999`, not `1.0`, so the equality
`sum(weights.values()) == 1.0` is false for the configuration as
stored. -/
theorem C7_counterexample_float_weight_sum :
    Binary64.pyWeightsSum = 9007199254740991/9007199254740992 ∧
    Binary64.pyWeightsSum ≠ 1 :=
  ⟨Binary64.pyWeightsSum_eval, by rw [Binary64.pyWeightsSum_eval]; norm_num⟩

/-- Claim C7 amended: the five configured weights sum to exactly `1` as
exact decimal values, but the Python expression
`sum(weights.values()) == 1.0` does not hold: in binary64 arithmetic the
sum evaluates to `(2^53 - 1) / 2^53 = 0.9999999999999999 ≠ 1.0`. -/
theorem C7_amended_weight_sum :
    (CreditScorer.weightsList.map Prod.snd).sum = 1 ∧
    Binary64.pyWeightsSum = 9007199254740991/9007199254740992 ∧
    Binary64.pyWeightsSum ≠ 1 :=
  ⟨by norm_num [CreditScorer.weightsList], Binary64.pyWeightsSum_eval,
    by rw [Binary64.pyWeightsSum_eval]; norm_num⟩

open CreditScorer in
/-- Claim C8: for the out-of-contract input `onTimePaymentsPercent = 200`
(with `daysLateAvg = 0`), the payment-history sub-score is `2 > 1` (no
upper clamp exists on that path), yet the entry point still returns a
final score within `[300, 900]` (here exactly `900`, the clamp having
engaged). -/
theorem C8_out_of_contract_payment_history :
    calculate_payment_history_score 200 0 = 2 ∧
    1 < calculate_payment_history_score 200 0 ∧
    calculate_score 200 0 0 0 0 0 false 0 0 =
      some (900, [("payment_history", 420), ("credit_utilization", 171),
        ("credit_age", 36), ("credit_mix", 18), ("new_credit", 60)]) ∧
    MIN_SCORE ≤ (900:ℤ) ∧ (900:ℤ) ≤ MAX_SCORE := by
  refine ⟨by norm_num [calculate_payment_history_score],
    by norm_num [calculate_payment_history_score], ?_,
    by norm_num [MIN_SCORE], by norm_num [MAX_SCORE]⟩
  norm_num [calculate_score, calculate_final_score, computeWeighted,
    weights_eval_payment_history, weights_eval_credit_utilization,
    weights_eval_credit_age, weights_eval_credit_mix, weights_eval_new_credit,
    calculate_payment_history_score, calculate_credit_utilization_score,
    calculate_credit_age_score, calculate_credit_mix_score,
    calculate_new_credit_score, roundHalfEven, SCORE_RANGE, MIN_SCORE, MAX_SCORE]

open CreditScorer in
/-- Claim C9: on the sample input of the repository's example usage, the
component scores are `133/144 ≈ 0.9236`, `1`, `0.85`, `0.70`, `0.85`,
the weighted contributions are `(4655/24 ≈ 193.9583, 180, 76.5, 42, 51)`,
and the final score is `843 = round(13043/24 + 300)`. -/
theorem C9_sample_end_to_end :
    calculate_payment_history_score 95 5 = 133/144 ∧
    calculate_credit_utilization_score 25 = 1 ∧
    calculate_credit_age_score 3 = 85/100 ∧
    calculate_credit_mix_score 1 1 true = 7/10 ∧
    calculate_new_credit_score 1 0 = 85/100 ∧
    calculate_score 95 5 25 3 1 1 true 1 0 =
      some (843, [("payment_history", 4655/24), ("credit_utilization", 180),
        ("credit_age", 153/2), ("credit_mix", 42), ("new_credit", 51)]) := by
  refine ⟨by norm_num [calculate_payment_history_score],
    by norm_num [calculate_credit_utilization_score],
    by norm_num [calculate_credit_age_score],
    by norm_num [calculate_credit_mix_score],
    by norm_num [calculate_new_credit_score], ?_⟩
  norm_num [calculate_score, calculate_final_score, computeWeighted,
    weights_eval_payment_history, weights_eval_credit_utilization,
    weights_eval_credit_age, weights_eval_credit_mix, weights_eval_new_credit,
    calculate_payment_history_score, calculate_credit_utilization_score,
    calculate_credit_age_score, calculate_credit_mix_score,
    calculate_new_credit_score, roundHalfEven, SCORE_RANGE, MIN_SCORE, MAX_SCORE]

open CreditScorer in
/-- Claim C10: the 0.30 no-products floor is not a global lower bound of
the credit-mix function: with one unsecured loan only, the sub-score is
exactly 0.20, below the floor. -/
theorem C10_credit_mix_below_floor :
    calculate_credit_mix_score 0 1 false = 2/10 ∧
    calculate_credit_mix_score 0 1 false < 30/100 := by
  constructor <;> norm_num [calculate_credit_mix_score]
